import Mathlib

/-!
Shallow embedding of the stock-prediction service
(`prediction_portal/predictor/views.py` and `prediction_portal/model_builder.py`).

Prices and rates are modelled as rationals (exact arithmetic); pandas `NaN`
entries are modelled as `none : Option ℚ`; the two Django views are modelled
as total functions from an explicit request environment to an HTTP result.
-/

set_option maxRecDepth 16384

namespace StockPrediction

/-- Lookback constant `LOOKBACK_DAYS = 60` from `model_builder.py`. -/
def LOOKBACK_DAYS : Nat := 60

/-- State of the fitted `MinMaxScaler(feature_range=(0, 1))`: the minimum and
maximum of the training-time price range. -/
structure ScalerState where
  min : ℚ
  max : ℚ
deriving DecidableEq

/-- `scaler.transform`: `(x - min) / (max - min)`. -/
def ScalerState.transform (s : ScalerState) (x : ℚ) : ℚ :=
  (x - s.min) / (s.max - s.min)

/-- `scaler.inverse_transform`: `y * (max - min) + min`. -/
def ScalerState.inverse_transform (s : ScalerState) (y : ℚ) : ℚ :=
  y * (s.max - s.min) + s.min

/-- The confidence computation of `StockPredictionView.get` (views.py lines
128-133): both branches of the `if prediction > last_close` split. -/
def confidence (prediction last_close : ℚ) : ℚ :=
  if prediction > last_close then
    min 98 (50 + (prediction - last_close) / last_close * 100 * 2)
  else
    min 98 (50 + (last_close - prediction) / last_close * 100 * 2)

/-- The trend label of `StockPredictionView.get` (views.py lines 128-133). -/
def trend (prediction last_close : ℚ) : String :=
  if prediction > last_close then "Up" else "Down"

/-- `series.rolling(window=w).mean()`: entry `i` is `NaN` (modelled `none`)
while fewer than `w` values are available, and otherwise the mean of the `w`
values ending at position `i`. -/
def rolling_mean (window : Nat) (xs : List ℚ) : List (Option ℚ) :=
  (List.range xs.length).map (fun i =>
    if i + 1 < window then none
    else some (((xs.drop (i + 1 - window)).take window).sum / (window : ℚ)))

/-- The `format_series_for_json` helper shared by both views: multiply each
defined entry by the exchange rate, keep `NaN` (`none`) entries as `null`. -/
def format_series_for_json (series : List (Option ℚ)) (rate : ℚ) : List (Option ℚ) :=
  series.map (fun price =>
    match price with
    | some p => some (p * rate)
    | none => none)

/-- `ma_series.iloc[-1] if not np.isnan(ma_series.iloc[-1]) else 0`: the
stat-card substitution of the short-form endpoint (views.py lines 106-107). -/
def ma_stat (series : List (Option ℚ)) : ℚ :=
  (series.getLastD none).getD 0

/-- `X_test.append(scaled_data[-60:, 0])` (views.py line 119): the model input
is the last 60 entries of the scaled series. -/
def inference_window (scaled_data : List ℚ) : List ℚ :=
  scaled_data.drop (scaled_data.length - LOOKBACK_DAYS)

/-- `.iloc[-300:]`: the short-form chart truncation (views.py lines 136-138). -/
def last300 {α : Type} (l : List α) : List α :=
  l.drop (l.length - 300)

/-- Outcome of the `INR=X` exchange-rate fetch: `none` models the fetch
raising an exception, `some none` models an empty result, `some (some r)`
models a fetched last close `r`.  Both views keep the hardcoded fallback 83.0
in the first two cases (views.py lines 78-90 and 187-196). -/
def resolveExchangeRate : Option (Option ℚ) → ℚ
  | some (some r) => r
  | some none => 83
  | none => 83

/-- External world of one request: the URL ticker argument, whether the model
and scaler loaded at startup, the exchange-rate fetch outcome, and the fetched
price history (parallel lists of date labels and closing prices), together
with the loaded scaler state and the opaque trained model. -/
structure Env where
  ticker : Option String
  modelLoaded : Bool
  scalerLoaded : Bool
  inrFetch : Option (Option ℚ)
  dates : List String
  closes : List ℚ
  scaler : ScalerState
  predict : List ℚ → ℚ

/-- The `chart_data` object of the short-form response. -/
structure ChartData where
  labels : List String
  close_prices : List (Option ℚ)
  ma_100 : List (Option ℚ)
  ma_200 : List (Option ℚ)
deriving DecidableEq

/-- Numeric content of the short-form success response (string formatting of
the JSON layer is presentation only and not modelled). -/
structure PredictionResponse where
  ticker : String
  last_close_inr : ℚ
  predicted_next_close_inr : ℚ
  moving_average_100d_inr : ℚ
  moving_average_200d_inr : ℚ
  trend_prediction : String
  confidence_percent : ℚ
  chart_data : ChartData
deriving DecidableEq

/-- Success payload of the 10-year historical endpoint. -/
structure HistoricalChartData where
  labels : List String
  ma_100 : List (Option ℚ)
  ma_200 : List (Option ℚ)
deriving DecidableEq

/-- An HTTP outcome: either a success payload or an error status with its
message. -/
inductive ApiResult (α : Type) where
  | ok : α → ApiResult α
  | err : Nat → String → ApiResult α
deriving DecidableEq

/-- Whether a result is an HTTP 500 error. -/
def ApiResult.isErr500 {α : Type} : ApiResult α → Bool
  | .err 500 _ => true
  | _ => false

/-- The denormalized prediction (views.py lines 116-125): scale the fetched
closes, feed the trailing 60-entry window to the model, inverse-transform. -/
def prediction_value (env : Env) : ℚ :=
  env.scaler.inverse_transform
    (env.predict (inference_window (env.closes.map env.scaler.transform)))

/-- The success response assembled by `StockPredictionView.get`
(views.py lines 101-164). -/
def predictionSuccess (env : Env) (ticker_symbol : String) : PredictionResponse :=
  { ticker := ticker_symbol.toUpper
    last_close_inr := env.closes.getLastD 0 * resolveExchangeRate env.inrFetch
    predicted_next_close_inr := prediction_value env * resolveExchangeRate env.inrFetch
    moving_average_100d_inr :=
      ma_stat (rolling_mean 100 env.closes) * resolveExchangeRate env.inrFetch
    moving_average_200d_inr :=
      ma_stat (rolling_mean 200 env.closes) * resolveExchangeRate env.inrFetch
    trend_prediction := trend (prediction_value env) (env.closes.getLastD 0)
    confidence_percent := confidence (prediction_value env) (env.closes.getLastD 0)
    chart_data :=
      { labels := last300 env.dates
        close_prices :=
          format_series_for_json (last300 (env.closes.map some))
            (resolveExchangeRate env.inrFetch)
        ma_100 :=
          format_series_for_json (last300 (rolling_mean 100 env.closes))
            (resolveExchangeRate env.inrFetch)
        ma_200 :=
          format_series_for_json (last300 (rolling_mean 200 env.closes))
            (resolveExchangeRate env.inrFetch) } }

/-- `StockPredictionView.get` (views.py lines 68-169): guard order is
missing ticker (400), model/scaler unloaded (500), empty history (404),
fewer than 60 closes (400), then the success path. -/
def stockPredictionGet (env : Env) : ApiResult PredictionResponse :=
  match env.ticker with
  | none => .err 400 "No ticker symbol provided."
  | some ticker_symbol =>
    if !env.modelLoaded || !env.scalerLoaded then
      .err 500 "Model or scaler not loaded. Run model_builder.py"
    else if env.closes.isEmpty then
      .err 404 "Invalid ticker or no data found"
    else if env.closes.length < 60 then
      .err 400 "Not enough historical data to make a prediction (need at least 60 days)."
    else
      .ok (predictionSuccess env ticker_symbol)

/-- The success payload assembled by `HistoricalChartView.get`
(views.py lines 207-223). -/
def historicalSuccess (env : Env) : HistoricalChartData :=
  { labels := env.dates
    ma_100 :=
      format_series_for_json (rolling_mean 100 env.closes)
        (resolveExchangeRate env.inrFetch)
    ma_200 :=
      format_series_for_json (rolling_mean 200 env.closes)
        (resolveExchangeRate env.inrFetch) }

/-- `HistoricalChartView.get` (views.py lines 180-228): guard order is
missing ticker (400), empty history (404), then the success path.  It has no
model/scaler readiness check. -/
def historicalChartGet (env : Env) : ApiResult HistoricalChartData :=
  match env.ticker with
  | none => .err 400 "No ticker symbol provided."
  | some _ =>
    if env.closes.isEmpty then
      .err 404 "Invalid ticker or no data found for 10-year period"
    else
      .ok (historicalSuccess env)

/-- `create_dataset` (model_builder.py lines 16-23): window `i` is
`dataset[i:(i + look_back)]`, label `i` is `dataset[i + look_back]`, for
`i` in `range(len(dataset) - look_back - 1)` (empty when the bound is not
positive, as with Nat subtraction). -/
def create_dataset (dataset : List ℚ) (look_back : Nat) : List (List ℚ) × List ℚ :=
  ((List.range (dataset.length - look_back - 1)).map
      (fun i => (dataset.drop i).take look_back),
   (List.range (dataset.length - look_back - 1)).map
      (fun i => dataset.getD (i + look_back) 0))

/-- Concrete environment with the model and scaler failed to load. -/
def envNoModel : Env :=
  ⟨some "AAPL", false, false, some (some 80), ["2024-01-02"], [5], ⟨0, 1⟩, fun _ => 0⟩

/-- Concrete environment with only 2 days of history. -/
def envSmall : Env :=
  ⟨some "tsla", true, true, some none, ["2024-01-02", "2024-01-03"], [1, 2], ⟨0, 1⟩,
   fun _ => 0⟩

/-- Concrete environment with exactly 60 days of history and a failed
exchange-rate fetch. -/
def envBig : Env :=
  ⟨some "msft", true, true, none, [], List.replicate 60 (1 : ℚ), ⟨0, 2⟩, fun _ => 0⟩

/-- C1: for a scaler state with `max > min`, `inverse_transform` undoes
`transform` exactly over the rationals. -/
theorem scaler_round_trip (s : ScalerState) (x : ℚ) (h : s.min < s.max) :
    s.inverse_transform (s.transform x) = x := by
  have hne : s.max - s.min ≠ 0 := sub_ne_zero.mpr (ne_of_gt h)
  unfold ScalerState.inverse_transform ScalerState.transform
  field_simp

/-- Witness for C1 at the concrete scaler state `(min, max) = (2, 10)` and
price `x = 7`. -/
theorem scaler_round_trip_witness :
    (⟨2, 10⟩ : ScalerState).inverse_transform ((⟨2, 10⟩ : ScalerState).transform 7) = 7 :=
  scaler_round_trip ⟨2, 10⟩ 7 (by norm_num)

/-- On the success path (ticker present, model and scaler loaded, non-empty
history of at least 60 closes) the short-form endpoint returns the assembled
success response. -/
theorem stockPredictionGet_eq_ok (env : Env) (t : String) (ht : env.ticker = some t)
    (hm : env.modelLoaded = true) (hs : env.scalerLoaded = true)
    (hne : env.closes ≠ []) (hlen : 60 ≤ env.closes.length) :
    stockPredictionGet env = ApiResult.ok (predictionSuccess env t) := by
  unfold stockPredictionGet
  rw [ht]
  simp [hm, hs, List.isEmpty_eq_false.mpr hne, Nat.not_lt.mpr hlen]

/-- On the success path (ticker present, non-empty history) the historical
endpoint returns the assembled chart payload. -/
theorem historicalChartGet_eq_ok (env : Env) (t : String) (ht : env.ticker = some t)
    (hne : env.closes ≠ []) :
    historicalChartGet env = ApiResult.ok (historicalSuccess env) := by
  unfold historicalChartGet
  rw [ht]
  simp [List.isEmpty_eq_false.mpr hne]

/-- Both components of `create_dataset` have length `len - look_back - 1`. -/
theorem create_dataset_length (xs : List ℚ) (L : Nat) :
    (create_dataset xs L).1.length = xs.length - L - 1 ∧
    (create_dataset xs L).2.length = xs.length - L - 1 := by
  constructor <;> simp [create_dataset]

/-- Window `i` of `create_dataset` is the slice `dataset[i : i + look_back]`. -/
theorem create_dataset_window_getD (xs : List ℚ) (L i : Nat) (h : i < xs.length - L - 1) :
    (create_dataset xs L).1.getD i [] = (xs.drop i).take L := by
  unfold create_dataset
  rw [List.getD_eq_getElem?_getD, List.getElem?_map, List.getElem?_range h]
  rfl

/-- Label `i` of `create_dataset` is `dataset[i + look_back]`. -/
theorem create_dataset_label_getD (xs : List ℚ) (L i : Nat) (h : i < xs.length - L - 1) :
    (create_dataset xs L).2.getD i 0 = xs.getD (i + L) 0 := by
  unfold create_dataset
  rw [List.getD_eq_getElem?_getD, List.getElem?_map, List.getElem?_range h]
  rfl

/-- Element `j` of the slice `xs[i : i + L]` is `xs[i + j]`. -/
theorem slice_getD (xs : List ℚ) (i L j : Nat) (hj : j < L) :
    ((xs.drop i).take L).getD j 0 = xs.getD (i + j) 0 := by
  rw [List.getD_eq_getElem?_getD, List.getD_eq_getElem?_getD,
    List.getElem?_take_of_lt hj, List.getElem?_drop]

/-- `rolling_mean` preserves the series length. -/
theorem rolling_mean_length (w : Nat) (xs : List ℚ) :
    (rolling_mean w xs).length = xs.length := by
  simp [rolling_mean]

/-- Entry `i` of `rolling_mean` for an in-range index. -/
theorem rolling_mean_getElem? (w : Nat) (xs : List ℚ) (i : Nat) (h : i < xs.length) :
    (rolling_mean w xs)[i]? =
      some (if i + 1 < w then none
        else some (((xs.drop (i + 1 - w)).take w).sum / (w : ℚ))) := by
  unfold rolling_mean
  rw [List.getElem?_map, List.getElem?_range h]
  rfl

/-- When the whole history is shorter than the window, the most recent
rolling-mean entry is `NaN` (modelled `none`). -/
theorem rolling_mean_getLast?_none (w : Nat) (xs : List ℚ) (hne : xs ≠ [])
    (h : xs.length < w) : (rolling_mean w xs).getLast? = some none := by
  rw [List.getLast?_eq_getElem?, rolling_mean_length]
  have hlt : xs.length - 1 < xs.length := Nat.sub_lt (List.length_pos.mpr hne) one_pos
  rw [rolling_mean_getElem? w xs _ hlt]
  have hw : xs.length - 1 + 1 < w := by omega
  simp [hw]

/-- `format_series_for_json` is an elementwise `Option.map (· * rate)`. -/
theorem format_series_eq_map (series : List (Option ℚ)) (rate : ℚ) :
    format_series_for_json series rate = series.map (Option.map (fun p => p * rate)) := by
  unfold format_series_for_json
  congr 1
  funext price
  cases price <;> rfl

/-- The last entry of a formatted series is the last entry of the input
mapped by the conversion (in particular `none` stays `none`). -/
theorem format_series_getLast? (series : List (Option ℚ)) (rate : ℚ) :
    (format_series_for_json series rate).getLast? =
      series.getLast?.map (Option.map (fun p => p * rate)) := by
  rw [format_series_eq_map, List.getLast?_map]

/-- Formatting preserves every undefined position: if entry `i` of the input
series is an in-range `NaN` (`none`), entry `i` of the formatted series is
still `none`.  (The default `some 0` makes the hypothesis pick out in-range
positions only.) -/
theorem format_series_getD_none (series : List (Option ℚ)) (rate : ℚ) (i : Nat)
    (h : series.getD i (some 0) = none) :
    (format_series_for_json series rate).getD i (some 0) = none := by
  rw [format_series_eq_map, List.getD_eq_getElem?_getD, List.getElem?_map]
  rw [List.getD_eq_getElem?_getD] at h
  cases hs : series[i]? with
  | none => simp [hs] at h
  | some o =>
    cases o with
    | none => simp [hs]
    | some v => simp [hs] at h

/-- A stat-card moving average is 0 when the most recent entry is `NaN`. -/
theorem ma_stat_eq_zero (series : List (Option ℚ)) (h : series.getLast? = some none) :
    ma_stat series = 0 := by
  unfold ma_stat
  rw [List.getLastD_eq_getLast?, h]
  rfl

/-- `last300` is the identity on lists of at most 300 entries. -/
theorem last300_of_le {α : Type} (l : List α) (h : l.length ≤ 300) : last300 l = l := by
  unfold last300
  rw [Nat.sub_eq_zero_of_le h, List.drop_zero]

/-- C2: for `last_close > 0` the confidence equals
`min 98 (50 + |prediction - last_close| / last_close * 100 * 2)` and always
lies in `[50, 98]`; the endpoint's `confidence_percent` field is exactly this
confidence of the denormalized prediction and the last close. -/
theorem confidence_spec :
    (∀ p c : ℚ, 0 < c →
      confidence p c = min 98 (50 + |p - c| / c * 100 * 2) ∧
      50 ≤ confidence p c ∧ confidence p c ≤ 98) ∧
    (∀ (env : Env) (t : String), env.ticker = some t → env.modelLoaded = true →
      env.scalerLoaded = true → env.closes ≠ [] → 60 ≤ env.closes.length →
      stockPredictionGet env = ApiResult.ok (predictionSuccess env t) ∧
      (predictionSuccess env t).confidence_percent =
        confidence (prediction_value env) (env.closes.getLastD 0)) := by
  constructor
  · intro p c h
    have habs : confidence p c = min 98 (50 + |p - c| / c * 100 * 2) := by
      unfold confidence
      rcases lt_or_le c p with hlt | hle
      · rw [if_pos hlt, abs_of_pos (sub_pos.mpr hlt)]
      · rw [if_neg (not_lt.mpr hle), abs_of_nonpos (sub_nonpos.mpr hle), neg_sub]
    refine ⟨habs, ?_, ?_⟩
    · rw [habs]
      refine le_min (by norm_num) ?_
      have hgap : 0 ≤ |p - c| / c * 100 * 2 := by positivity
      linarith
    · rw [habs]
      exact min_le_left _ _
  · intro env t ht hm hs hne hlen
    exact ⟨stockPredictionGet_eq_ok env t ht hm hs hne hlen, rfl⟩

/-- Witness for C2 at `prediction = 3`, `last_close = 2`. -/
theorem confidence_spec_witness :
    confidence 3 2 = min 98 (50 + |(3 : ℚ) - 2| / 2 * 100 * 2) ∧
    50 ≤ confidence 3 2 ∧ confidence 3 2 ≤ 98 :=
  confidence_spec.1 3 2 (by norm_num)

/-- C3 counterexample: in the concrete environment where the model and scaler
failed to load, the historical-chart ticker endpoint succeeds with an OK
payload instead of failing with an HTTP 500 error response. -/
theorem historical_no_readiness_check :
    envNoModel.modelLoaded = false ∧ envNoModel.scalerLoaded = false ∧
    (historicalChartGet envNoModel).isErr500 = false ∧
    historicalChartGet envNoModel = ApiResult.ok (historicalSuccess envNoModel) :=
  ⟨rfl, rfl, rfl, rfl⟩

/-- C3 (amended): only the short-form prediction endpoint checks readiness —
it fails with HTTP 500 whenever the model or the scaler is not loaded — while
the historical-chart endpoint performs no readiness check: its result does not
depend on the loaded flags at all. -/
theorem model_readiness :
    (∀ (env : Env) (t : String), env.ticker = some t →
      (env.modelLoaded = false ∨ env.scalerLoaded = false) →
      stockPredictionGet env =
        ApiResult.err 500 "Model or scaler not loaded. Run model_builder.py") ∧
    (∀ (t : Option String) (m s m2 s2 : Bool) (inr : Option (Option ℚ))
      (d : List String) (c : List ℚ) (sc : ScalerState) (pr : List ℚ → ℚ),
      historicalChartGet ⟨t, m, s, inr, d, c, sc, pr⟩ =
        historicalChartGet ⟨t, m2, s2, inr, d, c, sc, pr⟩) := by
  constructor
  · intro env t ht h
    unfold stockPredictionGet
    rw [ht]
    rcases h with h | h <;> simp [h]
  · intro t m s m2 s2 inr d c sc pr
    cases t <;> rfl

/-- Witness for C3 (amended): the prediction endpoint 500s in the concrete
unloaded environment. -/
theorem model_readiness_witness :
    stockPredictionGet envNoModel =
      ApiResult.err 500 "Model or scaler not loaded. Run model_builder.py" :=
  model_readiness.1 envNoModel "AAPL" rfl (Or.inl rfl)

/-- C4: `inference_window` is exactly the last 60 entries of the scaled
series; on the success path the endpoint feeds the model the inference window
of the normalized closes; and a non-empty history of fewer than 60 closes
fails with HTTP 400 and no prediction. -/
theorem inference_window_spec :
    (∀ scaled : List ℚ, 60 ≤ scaled.length →
      (inference_window scaled).length = 60 ∧
      ∀ j : Nat,
        (inference_window scaled).getD j 0 = scaled.getD (scaled.length - 60 + j) 0) ∧
    (∀ (env : Env) (t : String), env.ticker = some t → env.modelLoaded = true →
      env.scalerLoaded = true → env.closes ≠ [] → env.closes.length < 60 →
      stockPredictionGet env =
        ApiResult.err 400
          "Not enough historical data to make a prediction (need at least 60 days).") ∧
    (∀ (env : Env) (t : String), env.ticker = some t → env.modelLoaded = true →
      env.scalerLoaded = true → env.closes ≠ [] → 60 ≤ env.closes.length →
      stockPredictionGet env = ApiResult.ok (predictionSuccess env t) ∧
      (predictionSuccess env t).predicted_next_close_inr =
        env.scaler.inverse_transform
          (env.predict (inference_window (env.closes.map env.scaler.transform))) *
          resolveExchangeRate env.inrFetch) := by
  refine ⟨?_, ?_, ?_⟩
  · intro scaled hlen
    constructor
    · unfold inference_window LOOKBACK_DAYS
      rw [List.length_drop]
      omega
    · intro j
      unfold inference_window LOOKBACK_DAYS
      rw [List.getD_eq_getElem?_getD, List.getD_eq_getElem?_getD, List.getElem?_drop]
  · intro env t ht hm hs hne hlt
    unfold stockPredictionGet
    rw [ht]
    simp [hm, hs, List.isEmpty_eq_false.mpr hne, hlt]
  · intro env t ht hm hs hne hlen
    exact ⟨stockPredictionGet_eq_ok env t ht hm hs hne hlen, rfl⟩

/-- Witness for C4: the concrete 2-day environment fails with HTTP 400. -/
theorem inference_window_spec_witness :
    stockPredictionGet envSmall =
      ApiResult.err 400
        "Not enough historical data to make a prediction (need at least 60 days)." :=
  inference_window_spec.2.1 envSmall "tsla" rfl rfl rfl (by decide) (by decide)

/-- C5: `create_dataset` produces exactly `max 0 (N - L - 1)` (window, label)
pairs (Nat subtraction); window `i` equals `series[i : i + L]` elementwise and
label `i` equals `series[i + L]`; both outputs are empty whenever
`N ≤ L + 1`. -/
theorem create_dataset_spec :
    ∀ (xs : List ℚ) (L : Nat),
      (create_dataset xs L).1.length = xs.length - L - 1 ∧
      (create_dataset xs L).2.length = xs.length - L - 1 ∧
      (∀ i, i < xs.length - L - 1 →
        (create_dataset xs L).1.getD i [] = (xs.drop i).take L ∧
        (∀ j, j < L →
          ((create_dataset xs L).1.getD i []).getD j 0 = xs.getD (i + j) 0) ∧
        (create_dataset xs L).2.getD i 0 = xs.getD (i + L) 0) ∧
      (xs.length ≤ L + 1 →
        (create_dataset xs L).1 = [] ∧ (create_dataset xs L).2 = []) := by
  intro xs L
  refine ⟨(create_dataset_length xs L).1, (create_dataset_length xs L).2, ?_, ?_⟩
  · intro i hi
    refine ⟨create_dataset_window_getD xs L i hi, ?_, create_dataset_label_getD xs L i hi⟩
    intro j hj
    rw [create_dataset_window_getD xs L i hi, slice_getD xs i L j hj]
  · intro hle
    have h0 : xs.length - L - 1 = 0 := by omega
    constructor <;> simp [create_dataset, h0]

/-- Witness for C5 on the 4-element series `[0, 1, 2, 3]` with lookback 2:
the first (and only) label is `series[0 + 2]`. -/
theorem create_dataset_spec_witness :
    (create_dataset [0, 1, 2, 3] 2).2.getD 0 0 = ([0, 1, 2, 3] : List ℚ).getD (0 + 2) 0 :=
  (((create_dataset_spec [0, 1, 2, 3] 2).2.2.1 0 (by decide)).2.2)

/-- C6: currency conversion preserves undefinedness: entry `i` of a formatted
series is the underlying entry mapped by `(· * rate)` — `none` stays `none`,
never `0 * rate` — and on their success paths both endpoints' moving-average
chart series are exactly `format_series_for_json` of the rolling means. -/
theorem conversion_preserves_null :
    (∀ (series : List (Option ℚ)) (rate : ℚ) (i : Nat),
      (format_series_for_json series rate).getD i none =
        (series.getD i none).map (fun p => p * rate)) ∧
    (∀ (env : Env) (t : String), env.ticker = some t → env.closes ≠ [] →
      historicalChartGet env = ApiResult.ok (historicalSuccess env) ∧
      (historicalSuccess env).ma_100 =
        format_series_for_json (rolling_mean 100 env.closes)
          (resolveExchangeRate env.inrFetch) ∧
      (historicalSuccess env).ma_200 =
        format_series_for_json (rolling_mean 200 env.closes)
          (resolveExchangeRate env.inrFetch)) ∧
    (∀ (env : Env) (t : String), env.ticker = some t → env.modelLoaded = true →
      env.scalerLoaded = true → env.closes ≠ [] → 60 ≤ env.closes.length →
      stockPredictionGet env = ApiResult.ok (predictionSuccess env t) ∧
      (predictionSuccess env t).chart_data.ma_100 =
        format_series_for_json (last300 (rolling_mean 100 env.closes))
          (resolveExchangeRate env.inrFetch) ∧
      (predictionSuccess env t).chart_data.ma_200 =
        format_series_for_json (last300 (rolling_mean 200 env.closes))
          (resolveExchangeRate env.inrFetch)) := by
  refine ⟨?_, ?_, ?_⟩
  · intro series rate i
    rw [format_series_eq_map, List.getD_eq_getElem?_getD, List.getElem?_map,
      List.getD_eq_getElem?_getD]
    cases series[i]? with
    | none => rfl
    | some o => cases o <;> rfl
  · intro env t ht hne
    exact ⟨historicalChartGet_eq_ok env t ht hne, rfl, rfl⟩
  · intro env t ht hm hs hne hlen
    exact ⟨stockPredictionGet_eq_ok env t ht hm hs hne hlen, rfl, rfl⟩

/-- Witness for C6 at the concrete 2-day environment and index 0 of a
one-entry undefined series. -/
theorem conversion_preserves_null_witness :
    ((format_series_for_json [none] 83).getD 0 none =
      (([none] : List (Option ℚ)).getD 0 none).map (fun p => p * 83)) ∧
    (historicalChartGet envSmall = ApiResult.ok (historicalSuccess envSmall) ∧
      (historicalSuccess envSmall).ma_100 =
        format_series_for_json (rolling_mean 100 envSmall.closes)
          (resolveExchangeRate envSmall.inrFetch) ∧
      (historicalSuccess envSmall).ma_200 =
        format_series_for_json (rolling_mean 200 envSmall.closes)
          (resolveExchangeRate envSmall.inrFetch)) :=
  ⟨conversion_preserves_null.1 [none] 83 0,
   conversion_preserves_null.2.1 envSmall "tsla" rfl (by decide)⟩

/-- C7: per window (100-day and 200-day separately), when the history is
shorter than the window the most recent moving average of that window is
undefined; whenever a window's most recent moving average is undefined the
short-form endpoint substitutes 0 in that window's stat-card field, while the
chart series of both endpoints substitute `null` (`none`) at every undefined
position. -/
theorem ma_undefined_asymmetry :
    (∀ (env : Env) (t : String), env.ticker = some t → env.modelLoaded = true →
      env.scalerLoaded = true → env.closes ≠ [] → 60 ≤ env.closes.length →
      stockPredictionGet env = ApiResult.ok (predictionSuccess env t) ∧
      (env.closes.length < 100 →
        (rolling_mean 100 env.closes).getLast? = some none) ∧
      ((rolling_mean 100 env.closes).getLast? = some none →
        (predictionSuccess env t).moving_average_100d_inr = 0) ∧
      (env.closes.length < 200 →
        (rolling_mean 200 env.closes).getLast? = some none) ∧
      ((rolling_mean 200 env.closes).getLast? = some none →
        (predictionSuccess env t).moving_average_200d_inr = 0) ∧
      (∀ i : Nat, (last300 (rolling_mean 100 env.closes)).getD i (some 0) = none →
        (predictionSuccess env t).chart_data.ma_100.getD i (some 0) = none) ∧
      (∀ i : Nat, (last300 (rolling_mean 200 env.closes)).getD i (some 0) = none →
        (predictionSuccess env t).chart_data.ma_200.getD i (some 0) = none)) ∧
    (∀ (env : Env) (t : String), env.ticker = some t → env.closes ≠ [] →
      historicalChartGet env = ApiResult.ok (historicalSuccess env) ∧
      (env.closes.length < 100 →
        (rolling_mean 100 env.closes).getLast? = some none) ∧
      (env.closes.length < 200 →
        (rolling_mean 200 env.closes).getLast? = some none) ∧
      (∀ i : Nat, (rolling_mean 100 env.closes).getD i (some 0) = none →
        (historicalSuccess env).ma_100.getD i (some 0) = none) ∧
      (∀ i : Nat, (rolling_mean 200 env.closes).getD i (some 0) = none →
        (historicalSuccess env).ma_200.getD i (some 0) = none)) := by
  constructor
  · intro env t ht hm hs hne hlen
    refine ⟨stockPredictionGet_eq_ok env t ht hm hs hne hlen,
      fun h => rolling_mean_getLast?_none 100 env.closes hne h, ?_,
      fun h => rolling_mean_getLast?_none 200 env.closes hne h, ?_, ?_, ?_⟩
    · intro h
      show ma_stat (rolling_mean 100 env.closes) * resolveExchangeRate env.inrFetch = 0
      rw [ma_stat_eq_zero _ h, zero_mul]
    · intro h
      show ma_stat (rolling_mean 200 env.closes) * resolveExchangeRate env.inrFetch = 0
      rw [ma_stat_eq_zero _ h, zero_mul]
    · intro i hi
      show (format_series_for_json (last300 (rolling_mean 100 env.closes))
          (resolveExchangeRate env.inrFetch)).getD i (some 0) = none
      exact format_series_getD_none _ _ i hi
    · intro i hi
      show (format_series_for_json (last300 (rolling_mean 200 env.closes))
          (resolveExchangeRate env.inrFetch)).getD i (some 0) = none
      exact format_series_getD_none _ _ i hi
  · intro env t ht hne
    refine ⟨historicalChartGet_eq_ok env t ht hne,
      fun h => rolling_mean_getLast?_none 100 env.closes hne h,
      fun h => rolling_mean_getLast?_none 200 env.closes hne h, ?_, ?_⟩
    · intro i hi
      show (format_series_for_json (rolling_mean 100 env.closes)
          (resolveExchangeRate env.inrFetch)).getD i (some 0) = none
      exact format_series_getD_none _ _ i hi
    · intro i hi
      show (format_series_for_json (rolling_mean 200 env.closes)
          (resolveExchangeRate env.inrFetch)).getD i (some 0) = none
      exact format_series_getD_none _ _ i hi

/-- Witness for C7 at the concrete 60-day environment (60 < 100, so both
moving averages are undefined on the most recent day, and chart position 0 is
undefined for both windows). -/
theorem ma_undefined_asymmetry_witness :
    stockPredictionGet envBig = ApiResult.ok (predictionSuccess envBig "msft") ∧
    (predictionSuccess envBig "msft").moving_average_100d_inr = 0 ∧
    (predictionSuccess envBig "msft").moving_average_200d_inr = 0 ∧
    (predictionSuccess envBig "msft").chart_data.ma_100.getD 0 (some 0) = none ∧
    (predictionSuccess envBig "msft").chart_data.ma_200.getD 0 (some 0) = none := by
  have h := ma_undefined_asymmetry.1 envBig "msft" rfl rfl rfl (by decide) (by decide)
  exact ⟨h.1, h.2.2.1 (h.2.1 (by decide)), h.2.2.2.2.1 (h.2.2.2.1 (by decide)),
    h.2.2.2.2.2.1 0 (by decide), h.2.2.2.2.2.2 0 (by decide)⟩

/-- C8: the trend label is `"Up"` exactly when `prediction > last_close` and
`"Down"` in every other case (including equality); the endpoint's
`trend_prediction` field is this label applied to the denormalized prediction
and the last close. -/
theorem trend_spec :
    (∀ p c : ℚ, (trend p c = "Up" ↔ p > c) ∧ (¬p > c → trend p c = "Down")) ∧
    (∀ (env : Env) (t : String), env.ticker = some t → env.modelLoaded = true →
      env.scalerLoaded = true → env.closes ≠ [] → 60 ≤ env.closes.length →
      stockPredictionGet env = ApiResult.ok (predictionSuccess env t) ∧
      (predictionSuccess env t).trend_prediction =
        trend (prediction_value env) (env.closes.getLastD 0)) := by
  constructor
  · intro p c
    constructor
    · constructor
      · intro he
        by_contra hc
        unfold trend at he
        rw [if_neg hc] at he
        exact absurd he (by decide)
      · intro h
        unfold trend
        rw [if_pos h]
    · intro h
      unfold trend
      rw [if_neg h]
  · intro env t ht hm hs hne hlen
    exact ⟨stockPredictionGet_eq_ok env t ht hm hs hne hlen, rfl⟩

/-- Witness for C8 at the concrete 60-day environment. -/
theorem trend_spec_witness :
    stockPredictionGet envBig = ApiResult.ok (predictionSuccess envBig "msft") ∧
    (predictionSuccess envBig "msft").trend_prediction =
      trend (prediction_value envBig) (envBig.closes.getLastD 0) :=
  trend_spec.2 envBig "msft" rfl rfl rfl (by decide) (by decide)

/-- C9: the exchange rate resolves to the fallback 83 when the fetch raises
or returns an empty result and to the fetched rate otherwise; on the success
path the request succeeds for every fetch outcome and each reported price
field is the underlying value multiplied by the resolved rate (both
endpoints' chart series go through `format_series_for_json` with the same
resolved rate). -/
theorem exchange_rate_fallback :
    resolveExchangeRate none = 83 ∧
    resolveExchangeRate (some none) = 83 ∧
    (∀ r : ℚ, resolveExchangeRate (some (some r)) = r) ∧
    (∀ (env : Env) (t : String), env.ticker = some t → env.modelLoaded = true →
      env.scalerLoaded = true → env.closes ≠ [] → 60 ≤ env.closes.length →
      stockPredictionGet env = ApiResult.ok (predictionSuccess env t) ∧
      (predictionSuccess env t).last_close_inr =
        env.closes.getLastD 0 * resolveExchangeRate env.inrFetch ∧
      (predictionSuccess env t).predicted_next_close_inr =
        prediction_value env * resolveExchangeRate env.inrFetch ∧
      (predictionSuccess env t).moving_average_100d_inr =
        ma_stat (rolling_mean 100 env.closes) * resolveExchangeRate env.inrFetch ∧
      (predictionSuccess env t).moving_average_200d_inr =
        ma_stat (rolling_mean 200 env.closes) * resolveExchangeRate env.inrFetch ∧
      (predictionSuccess env t).chart_data.ma_100 =
        format_series_for_json (last300 (rolling_mean 100 env.closes))
          (resolveExchangeRate env.inrFetch)) ∧
    (∀ (env : Env) (t : String), env.ticker = some t → env.closes ≠ [] →
      historicalChartGet env = ApiResult.ok (historicalSuccess env) ∧
      (historicalSuccess env).ma_100 =
        format_series_for_json (rolling_mean 100 env.closes)
          (resolveExchangeRate env.inrFetch)) := by
  refine ⟨rfl, rfl, fun r => rfl, ?_, ?_⟩
  · intro env t ht hm hs hne hlen
    exact ⟨stockPredictionGet_eq_ok env t ht hm hs hne hlen, rfl, rfl, rfl, rfl, rfl⟩
  · intro env t ht hne
    exact ⟨historicalChartGet_eq_ok env t ht hne, rfl⟩

/-- Witness for C9 at the concrete 60-day environment, whose exchange-rate
fetch raised (so the resolved rate is the fallback 83). -/
theorem exchange_rate_fallback_witness :
    stockPredictionGet envBig = ApiResult.ok (predictionSuccess envBig "msft") ∧
    (predictionSuccess envBig "msft").last_close_inr =
      envBig.closes.getLastD 0 * resolveExchangeRate envBig.inrFetch ∧
    (predictionSuccess envBig "msft").predicted_next_close_inr =
      prediction_value envBig * resolveExchangeRate envBig.inrFetch ∧
    (predictionSuccess envBig "msft").moving_average_100d_inr =
      ma_stat (rolling_mean 100 envBig.closes) * resolveExchangeRate envBig.inrFetch ∧
    (predictionSuccess envBig "msft").moving_average_200d_inr =
      ma_stat (rolling_mean 200 envBig.closes) * resolveExchangeRate envBig.inrFetch ∧
    (predictionSuccess envBig "msft").chart_data.ma_100 =
      format_series_for_json (last300 (rolling_mean 100 envBig.closes))
        (resolveExchangeRate envBig.inrFetch) :=
  exchange_rate_fallback.2.2.2.1 envBig "msft" rfl rfl rfl (by decide) (by decide)

/-- C10: with the test slice starting at `train_size - 60`, every label of a
(window, label) pair built from the test slice is drawn from global index at
least `train_size`, i.e. from the held-out part of the series. -/
theorem test_labels_in_holdout :
    ∀ (scaled : List ℚ) (train_size i : Nat),
      i < (scaled.drop (train_size - LOOKBACK_DAYS)).length - LOOKBACK_DAYS - 1 →
      (create_dataset (scaled.drop (train_size - LOOKBACK_DAYS)) LOOKBACK_DAYS).2.getD i 0 =
        scaled.getD (train_size - LOOKBACK_DAYS + (i + LOOKBACK_DAYS)) 0 ∧
      train_size ≤ train_size - LOOKBACK_DAYS + (i + LOOKBACK_DAYS) := by
  intro scaled ts i h
  constructor
  · rw [create_dataset_label_getD _ _ _ h, List.getD_eq_getElem?_getD,
      List.getD_eq_getElem?_getD, List.getElem?_drop]
  · simp only [LOOKBACK_DAYS]
    omega

/-- Witness for C10 on a 122-entry series with `train_size = 100`, pair
index 0: the label comes from global index 100 ≥ `train_size`. -/
theorem test_labels_in_holdout_witness :
    (create_dataset ((List.replicate 122 (1 : ℚ)).drop (100 - LOOKBACK_DAYS))
        LOOKBACK_DAYS).2.getD 0 0 =
      (List.replicate 122 (1 : ℚ)).getD (100 - LOOKBACK_DAYS + (0 + LOOKBACK_DAYS)) 0 ∧
    100 ≤ 100 - LOOKBACK_DAYS + (0 + LOOKBACK_DAYS) :=
  test_labels_in_holdout (List.replicate 122 1) 100 0 (by decide)
